import Mathlib

/-!
Verification development for the NBA totals analysis repository.

The statistics and strategy engine of the repository is embedded shallowly:

* JavaScript numbers are modelled by `JsNum`: an exact rational for every
  finite value, plus the three non-finite values `pinf` (+Infinity),
  `ninf` (-Infinity) and `nan` (NaN).  The arithmetic, comparison and
  truthiness operations below follow the ECMAScript semantics on this
  carrier (negative zero is identified with zero; no claim depends on it).
* Strings are Lean strings; the string-to-number helpers reimplement
  the exact prefix-parsing behaviour of parseInt(s, 10).
* Collections are Lean lists; JavaScript object maps keyed by team name
  are association lists in insertion order, matching Object.values order.

Source functions none of the stated properties depend on (the
parseFloat-based percent helper, the raw-data team aggregator
aggregateTeamStats, the market-insight ranker, logo and CSV helpers, and
the presentation layer) are not embedded.
-/

/-- Model of a JavaScript number: finite rational, infinities, or NaN. -/
inductive JsNum where
  | fin (q : ℚ)
  | pinf
  | ninf
  | nan
deriving DecidableEq, Repr

/-- JavaScript addition on the `JsNum` model. -/
def jsAdd : JsNum → JsNum → JsNum
  | .fin a, .fin b => .fin (a + b)
  | .fin _, .pinf => .pinf
  | .fin _, .ninf => .ninf
  | .pinf, .fin _ => .pinf
  | .ninf, .fin _ => .ninf
  | .pinf, .pinf => .pinf
  | .ninf, .ninf => .ninf
  | .pinf, .ninf => .nan
  | .ninf, .pinf => .nan
  | _, _ => .nan

/-- JavaScript negation on the `JsNum` model. -/
def jsNeg : JsNum → JsNum
  | .fin a => .fin (-a)
  | .pinf => .ninf
  | .ninf => .pinf
  | .nan => .nan

/-- JavaScript subtraction on the `JsNum` model. -/
def jsSub (a b : JsNum) : JsNum := jsAdd a (jsNeg b)

/-- JavaScript multiplication on the `JsNum` model. -/
def jsMul : JsNum → JsNum → JsNum
  | .fin a, .fin b => .fin (a * b)
  | .fin a, .pinf => if 0 < a then .pinf else if a < 0 then .ninf else .nan
  | .fin a, .ninf => if 0 < a then .ninf else if a < 0 then .pinf else .nan
  | .pinf, .fin b => if 0 < b then .pinf else if b < 0 then .ninf else .nan
  | .ninf, .fin b => if 0 < b then .ninf else if b < 0 then .pinf else .nan
  | .pinf, .pinf => .pinf
  | .ninf, .ninf => .pinf
  | .pinf, .ninf => .ninf
  | .ninf, .pinf => .ninf
  | _, _ => .nan

/-- JavaScript division on the `JsNum` model (division of a nonzero finite
value by zero gives a signed infinity, 0/0 gives NaN). -/
def jsDiv : JsNum → JsNum → JsNum
  | .fin a, .fin b =>
      if b = 0 then (if a = 0 then .nan else if 0 < a then .pinf else .ninf)
      else .fin (a / b)
  | .fin _, .pinf => .fin 0
  | .fin _, .ninf => .fin 0
  | .pinf, .fin b => if 0 ≤ b then .pinf else .ninf
  | .ninf, .fin b => if 0 ≤ b then .ninf else .pinf
  | _, _ => .nan

/-- JavaScript strict less-than; any comparison involving NaN is false. -/
def jsLt : JsNum → JsNum → Bool
  | .fin a, .fin b => decide (a < b)
  | .fin _, .pinf => true
  | .fin _, .ninf => false
  | .pinf, _ => false
  | .ninf, .fin _ => true
  | .ninf, .pinf => true
  | .ninf, .ninf => false
  | _, _ => false

/-- JavaScript strict greater-than. -/
def jsGt (a b : JsNum) : Bool := jsLt b a

/-- JavaScript numeric truthiness: 0 and NaN are falsy, all else truthy. -/
def jsTruthy : JsNum → Bool
  | .fin q => decide (q ≠ 0)
  | .nan => false
  | _ => true

/-- JavaScript `a || b` restricted to numbers. -/
def jsOr (a b : JsNum) : JsNum := if jsTruthy a then a else b

/-- Sum of a list of JavaScript numbers, as `reduce((a, b) => a + b, 0)`. -/
def jsSum (l : List JsNum) : JsNum := l.foldl jsAdd (.fin 0)

/-- Accumulate the decimal digits at the head of the character list, exactly
as parseInt with radix 10 does: consume digits while they last, keep the
accumulator on the first non-digit.  `none` means no digit was consumed. -/
def parseDigits : List Char → Option ℕ → Option ℕ
  | [], acc => acc
  | c :: cs, acc =>
      if c.isDigit then parseDigits cs (some ((acc.getD 0) * 10 + (c.toNat - 48)))
      else acc

/-- Model of JavaScript parseInt(s, 10): skip leading whitespace, read an
optional sign, then the longest decimal-digit prefix; NaN when that prefix
is empty. -/
def parseIntJS (s : String) : JsNum :=
  match s.toList.dropWhile (fun c => c.isWhitespace) with
  | [] => .nan
  | c :: rest =>
      if c = '-' then
        match parseDigits rest none with
        | some n => .fin (-(n : ℚ))
        | none => .nan
      else if c = '+' then
        match parseDigits rest none with
        | some n => .fin (n : ℚ)
        | none => .nan
      else
        match parseDigits (c :: rest) none with
        | some n => .fin (n : ℚ)
        | none => .nan

/-- The numeric-extraction helper p of the source: parseInt(val or "0", 10),
where an absent or empty string falls back to "0". -/
def p (val : Option String) : JsNum :=
  parseIntJS (match val with
    | none => "0"
    | some s => if s = "" then "0" else s)

/-- Split a character list on a separator character, as the JavaScript
String.prototype.split with a single-character separator. -/
def splitOnChar (sep : Char) : List Char → List (List Char)
  | [] => [[]]
  | c :: cs =>
      let rest := splitOnChar sep cs
      if c = sep then [] :: rest
      else match rest with
        | [] => [[c]]
        | g :: gs => (c :: g) :: gs

/-- Days from the civil epoch 1970-01-01 for a proleptic Gregorian date
(the algorithm used by every civil-date library; integer division is
truncating, all intermediate values are nonnegative for CE dates). -/
def daysFromCivil (y m d : ℤ) : ℤ :=
  let y2 := if m ≤ 2 then y - 1 else y
  let era := (if 0 ≤ y2 then y2 else y2 - 399) / 400
  let yoe := y2 - era * 400
  let mp := (m + 9) % 12
  let doy := (153 * mp + 2) / 5 + d - 1
  let doe := yoe * 365 + yoe / 4 - yoe / 100 + doy
  era * 146097 + doe - 719468

/-- Parse all-digit characters as a natural number; `none` otherwise. -/
def parseNat (cs : List Char) : Option ℕ :=
  if cs.isEmpty then none
  else if cs.all (fun c => c.isDigit) then
    some (cs.foldl (fun acc c => acc * 10 + (c.toNat - 48)) 0)
  else none

/-- Model of the date normalization of the match processor: take the text
before the first space, split it on periods (DD.MM.YYYY), reverse to
YYYY-MM-DD, and read it as the UTC millisecond timestamp new Date gives
such a string.  A string that does not present three numeric components
maps to 0 (the source would build an Invalid Date whose timestamp is NaN;
no claim depends on malformed date strings). -/
def dateMillis (s : String) : ℤ :=
  let firstPart := (splitOnChar ' ' s.toList).headD []
  let parts := (splitOnChar '.' firstPart).reverse
  match parts with
  | [ys, ms, ds] =>
      match parseNat ys, parseNat ms, parseNat ds with
      | some y, some m, some d => daysFromCivil (y : ℤ) (m : ℤ) (d : ℤ) * 86400000
      | _, _, _ => 0
  | _ => 0

/-- Per-quarter box-score line of one team as scraped; the fields not used
by the embedded computations (made/attempted splits for 2-point and
3-point shots, assists, blocks, steals, defensive rebounds) are omitted.
Every field is an optional numeric-but-string-typed value. -/
structure QuarterStats where
  field_goals_attempted : Option String
  field_goals_made : Option String
  free_throws_attempted : Option String
  offensive_rebounds : Option String
  turnovers : Option String
deriving DecidableEq, Repr

/-- Home and away points of one period, string-encoded as scraped. -/
structure QScorePair where
  home_score : String
  away_score : String
deriving DecidableEq, Repr

/-- The period-label-keyed score map of a raw match.  The source only ever
reads the keys Q1, Q2, Q3, Q4 and OT, so the map is modelled by its five
relevant entries. -/
structure QuarterScores where
  q1 : Option QScorePair
  q2 : Option QScorePair
  q3 : Option QScorePair
  q4 : Option QScorePair
  ot : Option QScorePair
deriving DecidableEq, Repr

/-- The market information attached to a raw match; over and under prices
may be absent (undefined), which the processor replaces by 1.91. -/
structure LineOdds where
  total_line : ℚ
  over_odds : Option ℚ
  under_odds : Option ℚ
deriving DecidableEq, Repr

/-- One raw match record (the fields the statistical core reads).  The
quarter_stats collection lists, in object insertion order, each recorded
period as an association list from team name to that team's line. -/
structure MatchData where
  match_id : String
  date : String
  home_team : String
  away_team : String
  home_score : String
  away_score : String
  quarter_scores : QuarterScores
  quarter_stats : List (List (String × QuarterStats))
  line_odds : LineOdds
deriving DecidableEq, Repr

/-- Settled result of a match against its line. -/
inductive MatchResult where
  | over
  | under
  | push
deriving DecidableEq, Repr

/-- Canonical processed match record, one per raw match.  Numeric fields
that the source computes with unguarded JavaScript arithmetic are `JsNum`;
the line and prices are plain rationals (they come from typed JSON
numbers). -/
structure ProcessedMatch where
  id : String
  date : ℤ
  homeTeam : String
  awayTeam : String
  homeScore : JsNum
  awayScore : JsNum
  totalScore : JsNum
  regulationTotal : JsNum
  line : ℚ
  overOdds : ℚ
  underOdds : ℚ
  result : MatchResult
  diff : JsNum
  pace : JsNum
  homeTS : JsNum
  awayTS : JsNum
  homeFG_Pct : JsNum
  awayFG_Pct : JsNum
  quarterlyTotals : List JsNum
  homeQScores : List JsNum
  awayQScores : List JsNum
  isOT : Bool
deriving DecidableEq, Repr

/-- Stable insertion step for the date-descending sorts of the source
(JavaScript sort with comparator (a, b) => b.date - a.date): an element
is inserted after every already-placed element of date not smaller. -/
def insertDesc (x : ProcessedMatch) : List ProcessedMatch → List ProcessedMatch
  | [] => [x]
  | y :: ys => if x.date ≤ y.date then y :: insertDesc x ys else x :: y :: ys

/-- Stable sort by date descending, the result every consistent stable
sort (hence the JavaScript engine sort) produces for that comparator. -/
def sortDateDesc (l : List ProcessedMatch) : List ProcessedMatch :=
  l.foldl (fun acc x => insertDesc x acc) []

/-- Look a team name up in one period's association list of box scores. -/
def lookupTeam (qstats : List (String × QuarterStats)) (t : String) : Option QuarterStats :=
  (qstats.find? (fun e => e.1 == t)).map (fun e => e.2)

/-- Possession estimate 0.96 * (FGA + 0.44 * FTA - ORB + TOV) for one
team's period line; 0 when no stat object is supplied. -/
def calculatePossessions (stats : Option QuarterStats) : JsNum :=
  match stats with
  | none => .fin 0
  | some s =>
      let fga := p s.field_goals_attempted
      let fta := p s.free_throws_attempted
      let orb := p s.offensive_rebounds
      let tov := p s.turnovers
      jsMul (.fin (96 / 100 : ℚ)) (jsAdd (jsSub (jsAdd fga (jsMul (.fin (44 / 100 : ℚ)) fta)) orb) tov)

/-- The true-shooting denominator 2 * (FGA + 0.44 * FTA). -/
def gameTSDenominator (fga fta : JsNum) : JsNum :=
  jsMul (.fin 2) (jsAdd fga (jsMul (.fin (44 / 100 : ℚ)) fta))

/-- The true-shooting denominator of a single period line. -/
def tsDenominator (s : QuarterStats) : JsNum :=
  gameTSDenominator (p s.field_goals_attempted) (p s.free_throws_attempted)

/-- True-shooting percentage Points / (2 * (FGA + 0.44 * FTA)) * 100 with
the explicit guards of the source: 0 when no stats or zero points, and 0
when the denominator is zero. -/
def calculateTS (points : JsNum) (stats : Option QuarterStats) : JsNum :=
  match stats with
  | none => .fin 0
  | some s =>
      if points = .fin 0 then .fin 0
      else
        if tsDenominator s = .fin 0 then .fin 0
        else jsMul (jsDiv points (tsDenominator s)) (.fin 100)

/-- Team-name normalization map of the source. -/
def normalizeTeamName (name : String) : String :=
  if name == ("LA Clippers") then ("Los Angeles Clippers") else name

/-- Accumulator for the per-game box-score sums of the match processor. -/
structure StatAcc where
  homePoss : JsNum
  awayPoss : JsNum
  homeFGA : JsNum
  homeFGM : JsNum
  homeFTA : JsNum
  awayFGA : JsNum
  awayFGM : JsNum
  awayFTA : JsNum
deriving DecidableEq, Repr

/-- The per-game box-score aggregation loop of the match processor:
fold every recorded period, adding the possessions, field-goal and
free-throw figures of whichever of the two teams the period has a line
for. -/
def gameStatAcc (md : MatchData) : StatAcc :=
  let acc0 : StatAcc := ⟨.fin 0, .fin 0, .fin 0, .fin 0, .fin 0, .fin 0, .fin 0, .fin 0⟩
  md.quarter_stats.foldl (fun acc qstats =>
    let acc1 := match lookupTeam qstats md.home_team with
      | some h =>
          { acc with
            homePoss := jsAdd acc.homePoss (calculatePossessions (some h)),
            homeFGA := jsAdd acc.homeFGA (p h.field_goals_attempted),
            homeFGM := jsAdd acc.homeFGM (p h.field_goals_made),
            homeFTA := jsAdd acc.homeFTA (p h.free_throws_attempted) }
      | none => acc
    match lookupTeam qstats md.away_team with
      | some a =>
          { acc1 with
            awayPoss := jsAdd acc1.awayPoss (calculatePossessions (some a)),
            awayFGA := jsAdd acc1.awayFGA (p a.field_goals_attempted),
            awayFGM := jsAdd acc1.awayFGM (p a.field_goals_made),
            awayFTA := jsAdd acc1.awayFTA (p a.free_throws_attempted) }
      | none => acc1) acc0

/-- Processing of one raw match into its `ProcessedMatch`, translated
line by line from the body of the map inside processMatches. -/
def processedOne (md : MatchData) : ProcessedMatch :=
  let homeScore := p (some md.home_score)
  let awayScore := p (some md.away_score)
  let totalScore := jsAdd homeScore awayScore
  let line := md.line_odds.total_line
  let r1 := if jsGt totalScore (.fin line) then MatchResult.over else MatchResult.push
  let result := if jsLt totalScore (.fin line) then MatchResult.under else r1
  let isOT := md.quarter_scores.ot.isSome
  let regQs := [md.quarter_scores.q1, md.quarter_scores.q2, md.quarter_scores.q3, md.quarter_scores.q4]
  let homeRegScore := regQs.foldl
    (fun acc q => jsAdd acc (match q with | some sc => p (some sc.home_score) | none => .fin 0)) (.fin 0)
  let awayRegScore := regQs.foldl
    (fun acc q => jsAdd acc (match q with | some sc => p (some sc.away_score) | none => .fin 0)) (.fin 0)
  let regulationTotal := jsAdd homeRegScore awayRegScore
  let statAcc := gameStatAcc md
  let pace := jsDiv (jsAdd statAcc.homePoss statAcc.awayPoss) (.fin 2)
  let hTS := jsOr (jsMul (jsDiv homeScore
    (gameTSDenominator statAcc.homeFGA statAcc.homeFTA)) (.fin 100)) (.fin 0)
  let aTS := jsOr (jsMul (jsDiv awayScore
    (gameTSDenominator statAcc.awayFGA statAcc.awayFTA)) (.fin 100)) (.fin 0)
  let hFG := if jsGt statAcc.homeFGA (.fin 0)
    then jsMul (jsDiv statAcc.homeFGM statAcc.homeFGA) (.fin 100) else .fin 0
  let aFG := if jsGt statAcc.awayFGA (.fin 0)
    then jsMul (jsDiv statAcc.awayFGM statAcc.awayFGA) (.fin 100) else .fin 0
  let qTotals := regQs.map (fun q =>
    match q with
    | some sc => jsAdd (p (some sc.home_score)) (p (some sc.away_score))
    | none => .fin 0)
  let homeQScores := regQs.map (fun q =>
    match q with | some sc => p (some sc.home_score) | none => .fin 0)
  let awayQScores := regQs.map (fun q =>
    match q with | some sc => p (some sc.away_score) | none => .fin 0)
  { id := md.match_id,
    date := dateMillis md.date,
    homeTeam := md.home_team,
    awayTeam := md.away_team,
    homeScore := homeScore,
    awayScore := awayScore,
    totalScore := totalScore,
    regulationTotal := regulationTotal,
    line := line,
    overOdds := (match md.line_odds.over_odds with
      | none => (191 / 100 : ℚ)
      | some x => if x = 0 then (191 / 100 : ℚ) else x),
    underOdds := (match md.line_odds.under_odds with
      | none => (191 / 100 : ℚ)
      | some x => if x = 0 then (191 / 100 : ℚ) else x),
    result := result,
    diff := jsSub totalScore (.fin line),
    pace := pace,
    homeTS := hTS,
    awayTS := aTS,
    homeFG_Pct := hFG,
    awayFG_Pct := aFG,
    quarterlyTotals := qTotals,
    homeQScores := homeQScores,
    awayQScores := awayQScores,
    isOT := isOT }

/-- The match processor: process every raw record, then sort by date
descending. -/
def processMatches (rawData : List MatchData) : List ProcessedMatch :=
  sortDateDesc (rawData.map processedOne)

/-- Per-team season aggregate record.  All numeric fields are JavaScript
numbers. -/
structure TeamStats where
  name : String
  gamesPlayed : JsNum
  avgPointsFor : JsNum
  avgPointsAgainst : JsNum
  avgPace : JsNum
  avgTS : JsNum
  overRate : JsNum
  last10Avg : JsNum
  avgFGA : JsNum
  avgFG_Pct : JsNum
  avg3P_Pct : JsNum
  avgFouls : JsNum
  avgFTM : JsNum
  avgTurnovers : JsNum
  avgFTA : JsNum
  avgRebounds : JsNum
deriving DecidableEq, Repr

/-- Tag of a matchup signal.  The presentation strings (title, description,
color) carried alongside the tag in the source are not modelled; the
signal count and kinds are what the claims concern. -/
inductive InsightType where
  | pace
  | brick
  | foul
  | mismatch
  | defense
deriving DecidableEq, Repr

/-- The automatic matchup analysis: the six push sites of the source in
order (pace clash, brick city, whistle heavy, the two directional
offense-versus-defense mismatches, defensive battle), each guarded by its
fixed-threshold condition. -/
def analyzeMatchup (t1 t2 : TeamStats) : List InsightType :=
  (if jsGt (jsAdd t1.avgFGA t2.avgFGA) (.fin 175) then [InsightType.pace] else [])
  ++ (if jsLt t1.avg3P_Pct (.fin 33) && jsLt t2.avg3P_Pct (.fin 33) then [InsightType.brick] else [])
  ++ (if jsGt (jsAdd t1.avgFouls t2.avgFouls) (.fin 40) && jsGt (jsAdd t1.avgFTM t2.avgFTM) (.fin 35)
      then [InsightType.foul] else [])
  ++ (if jsGt t1.avgPointsFor (.fin 115) && jsGt t2.avgPointsAgainst (.fin 115)
      then [InsightType.mismatch] else [])
  ++ (if jsGt t2.avgPointsFor (.fin 115) && jsGt t1.avgPointsAgainst (.fin 115)
      then [InsightType.mismatch] else [])
  ++ (if jsLt t1.avgPointsAgainst (.fin 108) && jsLt t2.avgPointsAgainst (.fin 108)
      then [InsightType.defense] else [])

/-- Mean of a list, reduce(+, 0) / length; 0/0 = NaN on the empty list as
in the source. -/
def getMean (data : List JsNum) : JsNum :=
  jsDiv (jsSum data) (.fin (data.length : ℚ))

/-- The quantity inside Math.sqrt in getSD: the sum of squared deviations
divided by (length - 1).  The square root itself is irrational in general
and is not needed by any claim: Math.sqrt maps 0 to 0, a positive value to
a positive value, NaN to NaN and +Infinity to +Infinity, so the zero-ness
and NaN-ness of getSD coincide with those of this radicand. -/
def getSDRad (data : List JsNum) : JsNum :=
  let m := getMean data
  jsDiv (jsSum (data.map (fun n => jsMul (jsSub n m) (jsSub n m))))
    (.fin (((data.length : ℤ) - 1 : ℤ) : ℚ))

/-- The relevant-history filter of the per-match insight generator:
matches strictly earlier by date involving either team of the target,
sorted date-descending. -/
def relevantHistory (mt : ProcessedMatch) (allMatches : List ProcessedMatch) : List ProcessedMatch :=
  sortDateDesc (allMatches.filter (fun m =>
    decide (m.date < mt.date) &&
    (m.homeTeam == mt.homeTeam || m.awayTeam == mt.homeTeam ||
     m.homeTeam == mt.awayTeam || m.awayTeam == mt.awayTeam)))

/-- The restriction of the 4th-quarter trend loop: only matches with
exactly 4 recorded period totals are counted. -/
def q4Counted (l : List ProcessedMatch) : List ProcessedMatch :=
  l.filter (fun m => m.quarterlyTotals.length == 4)

/-- Classification tag of the 4th-quarter trend (the source uses the
strings Neutral, High Intensity (+) and Fade (-)). -/
inductive TrendTag where
  | neutral
  | highIntensity
  | fade
deriving DecidableEq, Repr

/-- Output record of the per-match insight generator.  `sd15Sq` is the
radicand handed to Math.sqrt by getSD (see `getSDRad`); the source field
sd15 equals its square root, which is 0 iff sd15Sq is 0 and NaN iff
sd15Sq is NaN. -/
structure MatchInsightsOut where
  mean15 : JsNum
  sd15Sq : JsNum
  highScoringRate : JsNum
  q4Trend : TrendTag
  q4TrendValue : JsNum
deriving DecidableEq, Repr

/-- The per-match historical insight generator, translated from
generateMatchInsights: rolling mean and (squared) standard deviation of
the last 15 combined totals, high-scoring rate over the last 10, and the
4th-quarter scoring trend over the last 10 (its forEach accumulation of
q4DiffAcc and gamesCounted is rendered as a filter followed by a sum and
a length, which computes the same two values). -/
def generateMatchInsights (mt : ProcessedMatch) (allMatches : List ProcessedMatch) : MatchInsightsOut :=
  let rel := relevantHistory mt allMatches
  let last15 := rel.take 15
  let totals15 := last15.map (fun m => m.totalScore)
  let mean15 := if 0 < totals15.length then getMean totals15 else .fin 0
  let sd15Sq := if 0 < totals15.length then getSDRad totals15 else .fin 0
  let last10 := rel.take 10
  let highScoringGames := (last10.filter (fun m => jsGt m.totalScore (.fin 240))).length
  let highScoringRate := if 0 < last10.length
    then JsNum.fin ((highScoringGames : ℚ) / (last10.length : ℚ) * 100)
    else .fin 0
  let counted := q4Counted last10
  let q4DiffAcc := jsSum (counted.map (fun m =>
    let q123Avg := jsDiv (jsAdd (jsAdd (m.quarterlyTotals.getD 0 .nan)
      (m.quarterlyTotals.getD 1 .nan)) (m.quarterlyTotals.getD 2 .nan)) (.fin 3)
    jsSub (m.quarterlyTotals.getD 3 .nan) q123Avg))
  let gamesCounted := counted.length
  let q4TrendValue := if 0 < gamesCounted then jsDiv q4DiffAcc (.fin (gamesCounted : ℚ)) else .fin 0
  let t1 := if jsGt q4TrendValue (.fin 2) then TrendTag.highIntensity else TrendTag.neutral
  let q4Trend := if jsLt q4TrendValue (.fin (-2)) then TrendTag.fade else t1
  { mean15 := mean15, sd15Sq := sd15Sq, highScoringRate := highScoringRate,
    q4Trend := q4Trend, q4TrendValue := q4TrendValue }

/-- Side of a totals bet. -/
inductive Side where
  | over
  | under
deriving DecidableEq, Repr

/-- The five backtest strategies of the simulator. -/
inductive Strategy where
  | allOver
  | allUnder
  | leagueAvgReversion
  | teamModel
  | highEfficiencyOver
deriving DecidableEq, Repr

/-- Backtest configuration: strategy plus the panel parameters.  Date
bounds are already-parsed timestamps; `none` is an empty date field. -/
structure BTConfig where
  strategy : Strategy
  wager : ℚ
  valueMargin : ℚ
  efficiencyThreshold : ℚ
  selectedTeam : String
  startDate : Option ℤ
  endDate : Option ℤ
deriving DecidableEq, Repr

/-- Accumulator entry of the light team aggregator currentTeamStats. -/
structure TSAcc where
  name : String
  pointsFor : JsNum
  pointsAgainst : JsNum
  games : ℕ
  fgSum : JsNum
deriving DecidableEq, Repr

/-- Create the accumulator entry for a team name if it is not yet present
(object-key creation in insertion order). -/
def ensureTeam (acc : List TSAcc) (t : String) : List TSAcc :=
  if acc.any (fun e => e.name == t) then acc
  else acc ++ [{ name := t, pointsFor := .fin 0, pointsAgainst := .fin 0, games := 0, fgSum := .fin 0 }]

/-- Apply an update to the (unique) entry of a team name. -/
def updTeam (acc : List TSAcc) (t : String) (f : TSAcc → TSAcc) : List TSAcc :=
  acc.map (fun e => if e.name == t then f e else e)

/-- The light per-backtest team aggregator: fold every match of the
active dataset into per-team sums of points for, points against and
game-level field-goal percentage, then divide by games played.  The
fields the light aggregator cannot derive are set to 0 as in the source;
gamesPlayed is absent from the source object literal (undefined), NaN
here. -/
def currentTeamStatsOf (ms : List ProcessedMatch) : List TeamStats :=
  let acc := ms.foldl (fun acc m =>
    let acc := ensureTeam (ensureTeam acc m.homeTeam) m.awayTeam
    let acc := updTeam acc m.homeTeam (fun e =>
      { e with pointsFor := jsAdd e.pointsFor m.homeScore,
               pointsAgainst := jsAdd e.pointsAgainst m.awayScore,
               fgSum := jsAdd e.fgSum m.homeFG_Pct,
               games := e.games + 1 })
    updTeam acc m.awayTeam (fun e =>
      { e with pointsFor := jsAdd e.pointsFor m.awayScore,
               pointsAgainst := jsAdd e.pointsAgainst m.homeScore,
               fgSum := jsAdd e.fgSum m.awayFG_Pct,
               games := e.games + 1 })) []
  acc.map (fun t =>
    { name := t.name,
      gamesPlayed := .nan,
      avgPointsFor := jsDiv t.pointsFor (.fin (t.games : ℚ)),
      avgPointsAgainst := jsDiv t.pointsAgainst (.fin (t.games : ℚ)),
      avgFG_Pct := jsDiv t.fgSum (.fin (t.games : ℚ)),
      avgPace := .fin 0, avgTS := .fin 0, overRate := .fin 0, last10Avg := .fin 0,
      avgFGA := .fin 0, avg3P_Pct := .fin 0, avgFouls := .fin 0, avgFTM := .fin 0,
      avgTurnovers := .fin 0, avgFTA := .fin 0, avgRebounds := .fin 0 })

/-- Lookup of a team in the current aggregate list by normalized name. -/
def getTeamStats (stats : List TeamStats) (name : String) : Option TeamStats :=
  stats.find? (fun t => t.name == normalizeTeamName name)

/-- League average combined total of the active dataset; the constant
fallback 230 when the dataset is empty. -/
def leagueAvgOf (ms : List ProcessedMatch) : JsNum :=
  let leagueTotal := ms.foldl (fun s m => jsAdd s m.totalScore) (.fin 0)
  if 0 < ms.length then jsDiv leagueTotal (.fin (ms.length : ℚ)) else .fin 230

/-- The per-match bet decision of the backtest loop, one branch per
strategy, with the team-aggregate lookups and strict comparisons of the
source. -/
def decideBet (cfg : BTConfig) (leagueAvg : JsNum) (stats : List TeamStats)
    (m : ProcessedMatch) : Option Side :=
  match cfg.strategy with
  | .allOver => some .over
  | .allUnder => some .under
  | .highEfficiencyOver =>
      match getTeamStats stats m.homeTeam, getTeamStats stats m.awayTeam with
      | some home, some away =>
          let combinedFG := jsDiv (jsAdd home.avgFG_Pct away.avgFG_Pct) (.fin 2)
          if jsGt combinedFG (.fin cfg.efficiencyThreshold) then some .over else none
      | _, _ => none
  | .leagueAvgReversion =>
      if jsGt (.fin m.line) (jsAdd leagueAvg (.fin cfg.valueMargin)) then some .under
      else if jsLt (.fin m.line) (jsSub leagueAvg (.fin cfg.valueMargin)) then some .over
      else none
  | .teamModel =>
      match getTeamStats stats m.homeTeam, getTeamStats stats m.awayTeam with
      | some home, some away =>
          let homeAvgTotal := jsAdd home.avgPointsFor home.avgPointsAgainst
          let awayAvgTotal := jsAdd away.avgPointsFor away.avgPointsAgainst
          let projectedTotal := jsMul (jsDiv (jsAdd homeAvgTotal awayAvgTotal) (.fin 4)) (.fin 2)
          if jsGt projectedTotal (jsAdd (.fin m.line) (.fin cfg.valueMargin)) then some .over
          else if jsLt projectedTotal (jsSub (.fin m.line) (.fin cfg.valueMargin)) then some .under
          else none
      | _, _ => none

/-- The market price of the picked side. -/
def btOdds (bt : Side) (m : ProcessedMatch) : ℚ :=
  match bt with
  | .over => m.overOdds
  | .under => m.underOdds

/-- The winning condition of a placed bet: the side beats the line. -/
def betWon (bt : Side) (m : ProcessedMatch) : Bool :=
  match bt with
  | .over => jsGt m.totalScore (.fin m.line)
  | .under => jsLt m.totalScore (.fin m.line)

/-- The losing condition of a placed bet: the line beats the side. -/
def betLost (bt : Side) (m : ProcessedMatch) : Bool :=
  match bt with
  | .over => jsLt m.totalScore (.fin m.line)
  | .under => jsGt m.totalScore (.fin m.line)

/-- Settled outcome of one placed bet. -/
inductive BetOutcome where
  | win
  | loss
  | push
deriving DecidableEq, Repr

/-- One audit-log entry of a placed bet (the fields the claims read). -/
structure LogEntry where
  id : String
  score : JsNum
  line : ℚ
  pick : Side
  outcome : BetOutcome
  pnl : ℚ
deriving DecidableEq, Repr

/-- Running state of a backtest evaluation. -/
structure BTState where
  wins : ℕ
  losses : ℕ
  pushes : ℕ
  betsPlaced : ℕ
  profit : ℚ
  logs : List LogEntry
deriving DecidableEq, Repr

/-- One iteration of the backtest loop over a filtered match: decide a
bet, settle it against the real total, update the counters, the profit
and the audit log exactly as the source body does. -/
def btStep (cfg : BTConfig) (leagueAvg : JsNum) (stats : List TeamStats)
    (st : BTState) (m : ProcessedMatch) : BTState :=
  match decideBet cfg leagueAvg stats m with
  | none => st
  | some bt =>
      let odds := btOdds bt m
      let won := betWon bt m
      let lost := betLost bt m
      let resultPnl : ℚ := if won then cfg.wager * (odds - 1) else if lost then -cfg.wager else 0
      let outcome := if won then BetOutcome.win else if lost then BetOutcome.loss else BetOutcome.push
      { wins := st.wins + (if won then 1 else 0),
        losses := st.losses + (if !won && lost then 1 else 0),
        pushes := st.pushes + (if !won && !lost then 1 else 0),
        betsPlaced := st.betsPlaced + 1,
        profit := st.profit + resultPnl,
        logs := st.logs ++ [{ id := m.id, score := m.totalScore, line := m.line,
                              pick := bt, outcome := outcome, pnl := resultPnl }] }

/-- The team-involvement and inclusive date-range filter of the backtest. -/
def btFilter (cfg : BTConfig) (m : ProcessedMatch) : Bool :=
  (cfg.selectedTeam == ("ALL") || m.homeTeam == cfg.selectedTeam || m.awayTeam == cfg.selectedTeam)
  && (match cfg.startDate with | none => true | some sd => decide (sd ≤ m.date))
  && (match cfg.endDate with | none => true | some ed => decide (m.date ≤ ed))

/-- The matches a backtest run iterates over: filtered, date-descending. -/
def filteredMatches (cfg : BTConfig) (ms : List ProcessedMatch) : List ProcessedMatch :=
  sortDateDesc (ms.filter (btFilter cfg))

/-- Result record of a backtest run. -/
structure BTResult where
  wins : ℕ
  losses : ℕ
  pushes : ℕ
  profit : ℚ
  roi : JsNum
  totalBets : ℕ
  leagueAvg : JsNum
  historyLogs : List LogEntry
deriving DecidableEq, Repr

/-- The backtest engine (source calculateBacktestROI): the league average
and light team aggregates are computed from the whole active dataset, the
loop runs over the filtered date-sorted matches, and the final ROI is
profit / (betsPlaced * wager) * 100, or 0 when no bet was placed. -/
def calculateBacktestRoi (cfg : BTConfig) (backtestMatches : List ProcessedMatch) : BTResult :=
  let leagueAvg := leagueAvgOf backtestMatches
  let stats := currentTeamStatsOf backtestMatches
  let st := (filteredMatches cfg backtestMatches).foldl (btStep cfg leagueAvg stats)
    { wins := 0, losses := 0, pushes := 0, betsPlaced := 0, profit := 0, logs := [] }
  { wins := st.wins, losses := st.losses, pushes := st.pushes, profit := st.profit,
    roi := if 0 < st.betsPlaced
      then jsMul (jsDiv (.fin st.profit) (.fin ((st.betsPlaced : ℚ) * cfg.wager))) (.fin 100)
      else .fin 0,
    totalBets := st.betsPlaced,
    leagueAvg := leagueAvg,
    historyLogs := st.logs }

/-! ## Helper lemmas -/

lemma mem_insertDesc {x a : ProcessedMatch} :
    ∀ {l : List ProcessedMatch}, a ∈ insertDesc x l ↔ a = x ∨ a ∈ l := by
  intro l
  induction l with
  | nil => simp [insertDesc]
  | cons y ys ih =>
      by_cases h : x.date ≤ y.date
      · simp only [insertDesc, if_pos h, List.mem_cons, ih]
        try tauto
      · simp only [insertDesc, if_neg h, List.mem_cons]
        try tauto

lemma mem_foldl_insertDesc {a : ProcessedMatch} :
    ∀ (l acc : List ProcessedMatch),
      a ∈ l.foldl (fun acc x => insertDesc x acc) acc ↔ a ∈ acc ∨ a ∈ l := by
  intro l
  induction l with
  | nil => simp
  | cons y ys ih =>
      intro acc
      simp only [List.foldl_cons, ih, mem_insertDesc, List.mem_cons]
      tauto

lemma mem_sortDateDesc {a : ProcessedMatch} {l : List ProcessedMatch} :
    a ∈ sortDateDesc l ↔ a ∈ l := by
  simp [sortDateDesc, mem_foldl_insertDesc]

lemma jsLt_fin_fin (a b : ℚ) : jsLt (.fin a) (.fin b) = decide (a < b) := rfl

lemma jsGt_fin_fin (a b : ℚ) : jsGt (.fin a) (.fin b) = decide (b < a) := rfl

lemma jsLt_nan_left (b : JsNum) : jsLt .nan b = false := by cases b <;> rfl

lemma jsLt_nan_right (a : JsNum) : jsLt a .nan = false := by cases a <;> rfl

lemma jsAdd_fin_fin (a b : ℚ) : jsAdd (.fin a) (.fin b) = .fin (a + b) := rfl

lemma jsSub_fin_fin (a b : ℚ) : jsSub (.fin a) (.fin b) = .fin (a + -b) := rfl

/-- A value below one finite bound is never above a not-smaller bound. -/
lemma jsGt_false_of_jsLt (x : JsNum) (a b : ℚ) (hab : a ≤ b)
    (h : jsLt x (.fin a) = true) : jsGt x (.fin b) = false := by
  cases x with
  | fin q =>
      simp only [jsLt_fin_fin, decide_eq_true_eq] at h
      simp only [jsGt_fin_fin, decide_eq_false_iff_not]
      linarith
  | pinf => simp [jsLt] at h
  | ninf => rfl
  | nan => simp [jsLt] at h

/-! ## Claim C7 -/

/-- Claim C7 as stated is false at the input some "abc": the source helper
p returns parseInt("abc", 10), which is NaN, not the integer 0 the claim
promises for a malformed string. -/
theorem c7_counterexample : p (some ("abc")) = JsNum.nan := by decide

lemma parseIntJS_int_or_nan (s : String) :
    (∃ n : ℤ, parseIntJS s = JsNum.fin ((n : ℚ))) ∨ parseIntJS s = JsNum.nan := by
  unfold parseIntJS
  cases s.toList.dropWhile (fun c => c.isWhitespace) with
  | nil => exact Or.inr rfl
  | cons c rest =>
      by_cases hm : c = '-'
      · simp only [hm, if_pos rfl]
        cases parseDigits rest none with
        | none => exact Or.inr rfl
        | some n => exact Or.inl ⟨-(n : ℤ), by push_cast; ring_nf⟩
      · by_cases hp : c = '+'
        · simp only [if_neg hm, hp, if_pos rfl]
          cases parseDigits rest none with
          | none => exact Or.inr rfl
          | some n => exact Or.inl ⟨(n : ℤ), by push_cast; ring_nf⟩
        · simp only [if_neg hm, if_neg hp]
          cases parseDigits (c :: rest) none with
          | none => exact Or.inr rfl
          | some n => exact Or.inl ⟨(n : ℤ), by push_cast; ring_nf⟩

/-- Claim C7 (amended): the numeric-extraction helper never raises (it is
a total function) and returns the integer 0 when the input is absent or
the empty string, and in general either an integer value or NaN; but a
non-empty string with no parseable decimal prefix yields NaN, not 0,
while a string with a numeric prefix yields that prefix value. -/
theorem c7_numeric_extraction :
    (p none = JsNum.fin 0) ∧
    (p (some ("")) = JsNum.fin 0) ∧
    (∀ val : Option String, (∃ n : ℤ, p val = JsNum.fin ((n : ℚ))) ∨ p val = JsNum.nan) ∧
    (p (some ("12abc")) = JsNum.fin 12) ∧
    (p (some ("-5")) = JsNum.fin (-5)) ∧
    (p (some ("xyz")) = JsNum.nan) := by
  refine ⟨by decide, by decide, ?_, by decide, by decide, by decide⟩
  intro val
  exact parseIntJS_int_or_nan _

/-! ## Claim C9 -/

lemma length_ite_single {c : Prop} [Decidable c] (x : InsightType) :
    (if c then [x] else []).length ≤ 1 := by
  split <;> simp

/-- A team profile that is fast, cold from deep, foul-prone, high-scoring
and porous: against its own mirror image it fires five signals at once. -/
def fiveSignalTeam (nm : String) : TeamStats :=
  { name := nm, gamesPlayed := .fin 10, avgPointsFor := .fin 120,
    avgPointsAgainst := .fin 120, avgPace := .fin 0, avgTS := .fin 0, overRate := .fin 0,
    last10Avg := .fin 0, avgFGA := .fin 100, avgFG_Pct := .fin 0, avg3P_Pct := .fin 30,
    avgFouls := .fin 25, avgFTM := .fin 20, avgTurnovers := .fin 0, avgFTA := .fin 0,
    avgRebounds := .fin 0 }

/-- Claim C9: the matchup analyzer evaluates its rules independently and
returns between zero and five insights; although it has six push sites
(the mismatch rule fires once per direction), the defensive-battle rule
(both defenses under 108 allowed points) excludes both mismatch rules
(which need an above-115 defense), so no input can produce six
insights, and five is attained. -/
theorem c9_matchup_bound :
    (∀ t1 t2 : TeamStats, (analyzeMatchup t1 t2).length ≤ 5) ∧
    (∃ t1 t2 : TeamStats, (analyzeMatchup t1 t2).length = 5) := by
  constructor
  · intro t1 t2
    unfold analyzeMatchup
    by_cases hd : (jsLt t1.avgPointsAgainst (.fin 108) && jsLt t2.avgPointsAgainst (.fin 108)) = true
    · have h1 : jsLt t1.avgPointsAgainst (.fin 108) = true := by
        have := hd
        rw [Bool.and_eq_true] at this
        exact this.1
      have h2 : jsLt t2.avgPointsAgainst (.fin 108) = true := by
        have := hd
        rw [Bool.and_eq_true] at this
        exact this.2
      have h4 : (jsGt t1.avgPointsFor (.fin 115) && jsGt t2.avgPointsAgainst (.fin 115)) = false := by
        rw [Bool.and_eq_false_iff]
        exact Or.inr (jsGt_false_of_jsLt _ 108 115 (by norm_num) h2)
      have h5 : (jsGt t2.avgPointsFor (.fin 115) && jsGt t1.avgPointsAgainst (.fin 115)) = false := by
        rw [Bool.and_eq_false_iff]
        exact Or.inr (jsGt_false_of_jsLt _ 108 115 (by norm_num) h1)
      simp only [hd, h4, h5, if_true, if_false, Bool.false_eq_true, List.length_append]
      have := length_ite_single (c := jsGt (jsAdd t1.avgFGA t2.avgFGA) (.fin 175) = true) InsightType.pace
      have := length_ite_single
        (c := (jsLt t1.avg3P_Pct (.fin 33) && jsLt t2.avg3P_Pct (.fin 33)) = true) InsightType.brick
      have := length_ite_single
        (c := (jsGt (jsAdd t1.avgFouls t2.avgFouls) (.fin 40) &&
               jsGt (jsAdd t1.avgFTM t2.avgFTM) (.fin 35)) = true) InsightType.foul
      simp only [List.length_cons, List.length_nil]
      omega
    · rw [Bool.not_eq_true] at hd
      simp only [hd, Bool.false_eq_true, if_false, List.length_append, List.length_nil]
      have := length_ite_single (c := jsGt (jsAdd t1.avgFGA t2.avgFGA) (.fin 175) = true) InsightType.pace
      have := length_ite_single
        (c := (jsLt t1.avg3P_Pct (.fin 33) && jsLt t2.avg3P_Pct (.fin 33)) = true) InsightType.brick
      have := length_ite_single
        (c := (jsGt (jsAdd t1.avgFouls t2.avgFouls) (.fin 40) &&
               jsGt (jsAdd t1.avgFTM t2.avgFTM) (.fin 35)) = true) InsightType.foul
      have := length_ite_single
        (c := (jsGt t1.avgPointsFor (.fin 115) && jsGt t2.avgPointsAgainst (.fin 115)) = true)
        InsightType.mismatch
      have := length_ite_single
        (c := (jsGt t2.avgPointsFor (.fin 115) && jsGt t1.avgPointsAgainst (.fin 115)) = true)
        InsightType.mismatch
      omega
  · exact ⟨fiveSignalTeam ("T1"), fiveSignalTeam ("T2"),
      by norm_num [analyzeMatchup, fiveSignalTeam, jsAdd, jsGt, jsLt]⟩

/-! ## Claim C5 -/

/-- Claim C5: the relevant-history filter of the per-match insight
generator holds exactly the matches dated strictly before the target that
involve at least one of the target teams as home or away; in particular a
match sharing the target date is excluded however its teams relate. -/
theorem c5_relevant_history :
    (∀ (mt : ProcessedMatch) (allMatches : List ProcessedMatch) (m : ProcessedMatch),
      m ∈ relevantHistory mt allMatches ↔
        (m ∈ allMatches ∧ m.date < mt.date ∧
         (m.homeTeam = mt.homeTeam ∨ m.awayTeam = mt.homeTeam ∨
          m.homeTeam = mt.awayTeam ∨ m.awayTeam = mt.awayTeam))) ∧
    (∀ (mt : ProcessedMatch) (allMatches : List ProcessedMatch) (m : ProcessedMatch),
      m ∈ allMatches → m.date = mt.date → m ∉ relevantHistory mt allMatches) := by
  have h1 : ∀ (mt : ProcessedMatch) (allMatches : List ProcessedMatch) (m : ProcessedMatch),
      m ∈ relevantHistory mt allMatches ↔
        (m ∈ allMatches ∧ m.date < mt.date ∧
         (m.homeTeam = mt.homeTeam ∨ m.awayTeam = mt.homeTeam ∨
          m.homeTeam = mt.awayTeam ∨ m.awayTeam = mt.awayTeam)) := by
    intro mt allMatches m
    unfold relevantHistory
    rw [mem_sortDateDesc, List.mem_filter]
    simp only [Bool.and_eq_true, Bool.or_eq_true, decide_eq_true_eq, beq_iff_eq]
    tauto
  refine ⟨h1, ?_⟩
  intro mt allMatches m _ hdate hrel
  have h2 := ((h1 mt allMatches m).mp hrel).2.1
  rw [hdate] at h2
  exact lt_irrefl _ h2

/-! ## Claim C6 -/

/-- A minimal processed-match value for concrete test inputs: only the
fields a given scenario reads are set to interesting values. -/
def mkPM (i : String) (d : ℤ) (hteam ateam : String) (total : JsNum) (line : ℚ) : ProcessedMatch :=
  { id := i, date := d, homeTeam := hteam, awayTeam := ateam,
    homeScore := .fin 0, awayScore := .fin 0, totalScore := total, regulationTotal := .fin 0,
    line := line, overOdds := (191 / 100 : ℚ), underOdds := (191 / 100 : ℚ),
    result := .push, diff := .fin 0, pace := .fin 0, homeTS := .fin 0, awayTS := .fin 0,
    homeFG_Pct := .fin 0, awayFG_Pct := .fin 0,
    quarterlyTotals := [.fin 0, .fin 0, .fin 0, .fin 0], homeQScores := [], awayQScores := [],
    isOT := false }

/-- The variance radicand of a one-element sample is 0/0, NaN, whatever
the sample value (finite, infinite or NaN). -/
lemma getSDRad_singleton (t : JsNum) : getSDRad [t] = JsNum.nan := by
  cases t with
  | fin q =>
      have hz : (0 : ℚ) + (q + -((0 + q) / 1)) * (q + -((0 + q) / 1)) = 0 := by ring
      norm_num [getSDRad, getMean, jsSum, jsAdd, jsDiv, jsSub, jsNeg, jsMul, hz]
  | pinf => norm_num [getSDRad, getMean, jsSum, jsAdd, jsDiv, jsSub, jsNeg, jsMul]
  | ninf => norm_num [getSDRad, getMean, jsSum, jsAdd, jsDiv, jsSub, jsNeg, jsMul]
  | nan => norm_num [getSDRad, getMean, jsSum, jsAdd, jsDiv, jsSub, jsNeg, jsMul]

/-- Target and single-history concrete inputs for the claim C6
counterexample. -/
def c6mt : ProcessedMatch := mkPM ("c6t") 100 ("A") ("B") (.fin 0) 0

/-- One earlier match of the same team with a finite combined total. -/
def c6h : ProcessedMatch := mkPM ("c6h") 50 ("A") ("C") (.fin 200) 0

/-- Claim C6 as stated is false at a one-element history: the relevant
history has exactly one match, yet the sample standard deviation is not 0
but NaN, because the source guards only the empty case and 0/0 arises at
n = 1 from the n - 1 divisor. -/
theorem c6_counterexample :
    relevantHistory c6mt [c6h] = [c6h] ∧
    (generateMatchInsights c6mt [c6h]).sd15Sq = JsNum.nan := by
  have hrel : relevantHistory c6mt [c6h] = [c6h] := by
    norm_num [relevantHistory, sortDateDesc, insertDesc, c6mt, c6h, mkPM]
  refine ⟨hrel, ?_⟩
  rw [generateMatchInsights, hrel]
  norm_num [getSDRad_singleton]

/-- Claim C6 (amended): the standard deviation of recent combined totals
is 0 when the relevant history is empty (the only guarded case); when the
history has exactly one match the n - 1 divisor is 0 and the standard
deviation is NaN, not 0. -/
theorem c6_sd_guard :
    ∀ (mt : ProcessedMatch) (allMatches : List ProcessedMatch),
      (relevantHistory mt allMatches = [] →
        (generateMatchInsights mt allMatches).sd15Sq = JsNum.fin 0 ∧
        (generateMatchInsights mt allMatches).mean15 = JsNum.fin 0) ∧
      ((relevantHistory mt allMatches).length = 1 →
        (generateMatchInsights mt allMatches).sd15Sq = JsNum.nan) := by
  intro mt allMatches
  constructor
  · intro h
    rw [generateMatchInsights, h]
    norm_num
  · intro h
    obtain ⟨x, hx⟩ := List.length_eq_one.mp h
    rw [generateMatchInsights, hx]
    norm_num [getSDRad_singleton]

/-- Witness for the amended claim C6 at concrete inputs: an empty history
gives standard deviation 0, a one-match history gives NaN. -/
theorem c6_witness :
    (generateMatchInsights c6mt []).sd15Sq = JsNum.fin 0 ∧
    (generateMatchInsights c6mt (c6h :: [])).sd15Sq = JsNum.nan := by
  constructor
  · exact ((c6_sd_guard c6mt []).1 rfl).1
  · refine (c6_sd_guard c6mt (c6h :: [])).2 ?_
    norm_num [relevantHistory, sortDateDesc, insertDesc, c6mt, c6h, mkPM]

/-! ## Claim C1 -/

lemma processedOne_totalScore (md : MatchData) :
    (processedOne md).totalScore = jsAdd (p (some md.home_score)) (p (some md.away_score)) := rfl

lemma processedOne_hAdd (md : MatchData) :
    (processedOne md).totalScore = jsAdd (processedOne md).homeScore (processedOne md).awayScore := rfl

lemma processedOne_line (md : MatchData) :
    (processedOne md).line = md.line_odds.total_line := rfl

lemma processedOne_result (md : MatchData) :
    (processedOne md).result =
      (if jsLt (processedOne md).totalScore (.fin (processedOne md).line) then MatchResult.under
       else if jsGt (processedOne md).totalScore (.fin (processedOne md).line) then MatchResult.over
       else MatchResult.push) := rfl

/-- A raw record whose home score string does not parse: its processed
total is NaN. -/
def c1md : MatchData :=
  { match_id := "c1", date := "10.01.2025", home_team := "A", away_team := "B",
    home_score := "x", away_score := "90",
    quarter_scores := { q1 := none, q2 := none, q3 := none, q4 := none, ot := none },
    quarter_stats := [],
    line_odds := { total_line := (361 / 2 : ℚ), over_odds := none, under_odds := none } }

/-- Claim C1 as stated is false on a record with an unparseable score
string: the processed match settles as PUSH although its total (NaN) does
not equal the line, breaking the claimed exact PUSH-iff-equality. -/
theorem c1_counterexample :
    (processedOne c1md) ∈ processMatches [c1md] ∧
    (processedOne c1md).result = MatchResult.push ∧
    (processedOne c1md).totalScore = JsNum.nan ∧
    ∀ t : ℚ, (processedOne c1md).totalScore ≠ JsNum.fin t := by
  have hsingle : processMatches [c1md] = [processedOne c1md] := rfl
  have hnan : (processedOne c1md).totalScore = JsNum.nan := rfl
  refine ⟨by rw [hsingle]; exact List.mem_singleton.mpr rfl, rfl, hnan, ?_⟩
  intro t h
  rw [hnan] at h
  exact JsNum.noConfusion h

/-- Claim C1 (amended): for every processed match, totalScore is the
JavaScript sum of homeScore and awayScore and regulationTotal is
insensitive to the OT entry (it sums only the four quarters); whenever the
total is a number the result trichotomy is exact (OVER iff total above
line, UNDER iff below, PUSH iff equal); but when a score string fails to
parse the total is NaN and the result degenerates to PUSH although the
total does not equal the line. -/
theorem c1_processed_invariants :
    (∀ (rawData : List MatchData), ∀ m ∈ processMatches rawData,
      (m.totalScore = jsAdd m.homeScore m.awayScore) ∧
      (∀ t : ℚ, m.totalScore = JsNum.fin t →
        ((m.result = MatchResult.over ↔ m.line < t) ∧
         (m.result = MatchResult.under ↔ t < m.line) ∧
         (m.result = MatchResult.push ↔ t = m.line))) ∧
      (m.totalScore = JsNum.nan → m.result = MatchResult.push)) ∧
    (∀ (md : MatchData) (x : Option QScorePair),
      (processedOne { md with quarter_scores := { md.quarter_scores with ot := x } }).regulationTotal
        = (processedOne md).regulationTotal) := by
  constructor
  · intro rawData m hm
    unfold processMatches at hm
    rw [mem_sortDateDesc, List.mem_map] at hm
    obtain ⟨md, _, rfl⟩ := hm
    refine ⟨processedOne_hAdd md, ?_, ?_⟩
    · intro t ht
      rw [processedOne_result, ht, jsLt_fin_fin, jsGt_fin_fin]
      rcases lt_trichotomy t (processedOne md).line with h | h | h
      · have h2 : ¬ (processedOne md).line < t := lt_asymm h
        simp [h, h2, ne_of_lt h]
      · simp [h, lt_irrefl]
      · have h2 : ¬ t < (processedOne md).line := lt_asymm h
        simp [h, h2, (ne_of_lt h).symm]
    · intro hnan
      rw [processedOne_result, hnan]
      simp [jsLt_nan_left, jsGt, jsLt_nan_right]
  · intro md x
    rfl

/-- A fully numeric raw record for the claim C1 witness. -/
def c1mdW : MatchData :=
  { match_id := "c1w", date := "11.01.2025", home_team := "A", away_team := "B",
    home_score := "120", away_score := "110",
    quarter_scores := { q1 := some { home_score := "30", away_score := "28" },
                        q2 := some { home_score := "30", away_score := "27" },
                        q3 := some { home_score := "30", away_score := "27" },
                        q4 := some { home_score := "20", away_score := "18" },
                        ot := some { home_score := "10", away_score := "10" } },
    quarter_stats := [],
    line_odds := { total_line := (441 / 2 : ℚ), over_odds := none, under_odds := none } }

/-- Witness for the amended claim C1: a 230-point game against a 220.5
line settles OVER, its total is the sum of the scores, and removing the
OT entry leaves the regulation total unchanged. -/
theorem c1_witness :
    (processedOne c1mdW).totalScore = jsAdd (processedOne c1mdW).homeScore (processedOne c1mdW).awayScore ∧
    (processedOne c1mdW).result = MatchResult.over ∧
    (processedOne { c1mdW with quarter_scores := { c1mdW.quarter_scores with ot := none } }).regulationTotal
      = (processedOne c1mdW).regulationTotal := by
  have hmem : processedOne c1mdW ∈ processMatches [c1mdW] := by
    have h : processMatches [c1mdW] = [processedOne c1mdW] := rfl
    rw [h]
    exact List.mem_singleton.mpr rfl
  have h120 : p (some ("120")) = JsNum.fin 120 := by decide
  have h110 : p (some ("110")) = JsNum.fin 110 := by decide
  have ht : (processedOne c1mdW).totalScore = JsNum.fin 230 := by
    rw [processedOne_totalScore]
    show jsAdd (p (some ("120"))) (p (some ("110"))) = JsNum.fin 230
    rw [h120, h110]
    norm_num [jsAdd]
  obtain ⟨ha, hiff, _⟩ := c1_processed_invariants.1 [c1mdW] _ hmem
  refine ⟨ha, ?_, c1_processed_invariants.2 c1mdW none⟩
  refine ((hiff 230 ht).1).mpr ?_
  rw [processedOne_line]
  norm_num [c1mdW]

/-! ## Claim C10 -/

lemma processedOne_qlen (md : MatchData) :
    (processedOne md).quarterlyTotals.length = 4 ∧
    (processedOne md).homeQScores.length = 4 ∧
    (processedOne md).awayQScores.length = 4 := ⟨rfl, rfl, rfl⟩

lemma processedOne_quarterlyTotals (md : MatchData) :
    (processedOne md).quarterlyTotals =
      [md.quarter_scores.q1, md.quarter_scores.q2, md.quarter_scores.q3, md.quarter_scores.q4].map
        (fun q => match q with
          | some sc => jsAdd (p (some sc.home_score)) (p (some sc.away_score))
          | none => JsNum.fin 0) := rfl

/-- Claim C10: every processed match carries exactly 4 combined period
totals and 4 period scores per team (absent periods as 0), so the
exactly-4-periods restriction of the 4th-quarter trend never drops a
match from the most-recent-10 subset, and a missing period contributes a
0-valued quarter. -/
theorem c10_quarter_lengths :
    (∀ (rawData : List MatchData), ∀ m ∈ processMatches rawData,
      m.quarterlyTotals.length = 4 ∧ m.homeQScores.length = 4 ∧ m.awayQScores.length = 4) ∧
    (∀ (rawData : List MatchData) (mt : ProcessedMatch),
      q4Counted ((relevantHistory mt (processMatches rawData)).take 10)
        = (relevantHistory mt (processMatches rawData)).take 10) ∧
    (∀ md : MatchData, md.quarter_scores.q1 = none →
      (processedOne md).quarterlyTotals.getD 0 JsNum.nan = JsNum.fin 0) := by
  refine ⟨?_, ?_, ?_⟩
  · intro rawData m hm
    unfold processMatches at hm
    rw [mem_sortDateDesc, List.mem_map] at hm
    obtain ⟨md, _, rfl⟩ := hm
    exact processedOne_qlen md
  · intro rawData mt
    apply List.filter_eq_self.mpr
    intro m hm
    have h1 : m ∈ relevantHistory mt (processMatches rawData) := List.take_subset _ _ hm
    unfold relevantHistory at h1
    rw [mem_sortDateDesc, List.mem_filter] at h1
    have h2 := h1.1
    unfold processMatches at h2
    rw [mem_sortDateDesc, List.mem_map] at h2
    obtain ⟨md, _, rfl⟩ := h2
    have := (processedOne_qlen md).1
    simp [this]
  · intro md h
    rw [processedOne_quarterlyTotals, h]
    rfl

/-- Raw record with three missing quarters and an OT period, for the
claim C10 witness. -/
def c10md : MatchData :=
  { match_id := "c10", date := "12.01.2025", home_team := "H", away_team := "W",
    home_score := "100", away_score := "95",
    quarter_scores := { q1 := none, q2 := some { home_score := "25", away_score := "25" },
                        q3 := none, q4 := none,
                        ot := some { home_score := "5", away_score := "5" } },
    quarter_stats := [],
    line_odds := { total_line := 200, over_odds := none, under_odds := none } }

/-- Witness for claim C10 at a record with missing periods. -/
theorem c10_witness :
    (processedOne c10md).quarterlyTotals.length = 4 ∧
    q4Counted ((relevantHistory (processedOne c10md) (processMatches [c10md])).take 10)
      = (relevantHistory (processedOne c10md) (processMatches [c10md])).take 10 ∧
    (processedOne c10md).quarterlyTotals.getD 0 JsNum.nan = JsNum.fin 0 := by
  have hmem : processedOne c10md ∈ processMatches [c10md] := by
    have h : processMatches [c10md] = [processedOne c10md] := rfl
    rw [h]
    exact List.mem_singleton.mpr rfl
  exact ⟨(c10_quarter_lengths.1 [c10md] _ hmem).1,
    c10_quarter_lengths.2.1 [c10md] (processedOne c10md),
    c10_quarter_lengths.2.2 c10md rfl⟩

/-! ## Claim C8 -/

lemma processedOne_homeScore (md : MatchData) :
    (processedOne md).homeScore = p (some md.home_score) := rfl

lemma processedOne_awayScore (md : MatchData) :
    (processedOne md).awayScore = p (some md.away_score) := rfl

lemma processedOne_homeTS (md : MatchData) :
    (processedOne md).homeTS =
      jsOr (jsMul (jsDiv (p (some md.home_score))
        (gameTSDenominator (gameStatAcc md).homeFGA (gameStatAcc md).homeFTA)) (.fin 100)) (.fin 0) := rfl

lemma processedOne_awayTS (md : MatchData) :
    (processedOne md).awayTS =
      jsOr (jsMul (jsDiv (p (some md.away_score))
        (gameTSDenominator (gameStatAcc md).awayFGA (gameStatAcc md).awayFTA)) (.fin 100)) (.fin 0) := rfl

/-- The game-level TS expression collapses to 0 when the score is 0,
whatever the denominator: the quotient is then 0 or NaN, both falsy. -/
lemma gameTS_zero (den : JsNum) :
    jsOr (jsMul (jsDiv (JsNum.fin 0) den) (JsNum.fin 100)) (JsNum.fin 0) = JsNum.fin 0 := by
  cases den with
  | fin b =>
      by_cases hb : b = 0
      · simp [jsDiv, hb, jsMul, jsOr, jsTruthy]
      · simp [jsDiv, hb, jsMul, jsOr, jsTruthy, zero_div]
  | pinf => simp [jsDiv, jsMul, jsOr, jsTruthy]
  | ninf => simp [jsDiv, jsMul, jsOr, jsTruthy]
  | nan => simp [jsDiv, jsMul, jsOr, jsTruthy]

/-- The game-level TS expression is +Infinity when the score is positive
and the denominator 0: the fallback `or 0` does not catch Infinity. -/
lemma gameTS_pinf (q : ℚ) (hq : 0 < q) :
    jsOr (jsMul (jsDiv (JsNum.fin q) (JsNum.fin 0)) (JsNum.fin 100)) (JsNum.fin 0) = JsNum.pinf := by
  have hne : q ≠ 0 := ne_of_gt hq
  simp [jsDiv, hne, hq, jsMul, jsOr, jsTruthy]

/-- Raw record with a positive score and no box-score lines: the summed
FGA and FTA are 0 and the true-shooting denominator vanishes. -/
def c8md : MatchData :=
  { match_id := "c8", date := "13.01.2025", home_team := "H", away_team := "W",
    home_score := "100", away_score := "90",
    quarter_scores := { q1 := none, q2 := none, q3 := none, q4 := none, ot := none },
    quarter_stats := [],
    line_odds := { total_line := 180, over_odds := none, under_odds := none } }

/-- Claim C8 as stated is false: a processed match with a positive score
and an empty box-score collection has homeTS = +Infinity, not 0 + the
`or 0` fallback only converts NaN (and 0) to 0; Infinity passes through. -/
theorem c8_counterexample :
    (processedOne c8md) ∈ processMatches [c8md] ∧
    (processedOne c8md).homeTS = JsNum.pinf := by
  have hmem : processedOne c8md ∈ processMatches [c8md] := by
    have h : processMatches [c8md] = [processedOne c8md] := rfl
    rw [h]
    exact List.mem_singleton.mpr rfl
  have hden : gameTSDenominator (gameStatAcc c8md).homeFGA (gameStatAcc c8md).homeFTA
      = JsNum.fin 0 := by
    have h1 : (gameStatAcc c8md).homeFGA = JsNum.fin 0 := rfl
    have h2 : (gameStatAcc c8md).homeFTA = JsNum.fin 0 := rfl
    rw [gameTSDenominator, h1, h2]
    norm_num [jsMul, jsAdd]
  have hs : p (some ("100")) = JsNum.fin 100 := by decide
  refine ⟨hmem, ?_⟩
  rw [processedOne_homeTS, hden]
  show jsOr (jsMul (jsDiv (p (some ("100"))) (JsNum.fin 0)) (JsNum.fin 100)) (JsNum.fin 0) = JsNum.pinf
  rw [hs]
  exact gameTS_pinf 100 (by norm_num)

/-- Claim C8 (amended): the standalone calculateTS is fully guarded (0
with no stats, 0 points or a 0 denominator); the game-level TS of the
match processor is 0 whenever the score is 0 (its `or 0` fallback
converts the NaN and 0 quotients), but when the score is positive and the
game denominator 2 * (FGA + 0.44 * FTA) is 0 it is +Infinity, which the
fallback does not convert. -/
theorem c8_ts_guards :
    (∀ (points : JsNum) (stats : Option QuarterStats),
      (calculateTS points none = JsNum.fin 0) ∧
      (points = JsNum.fin 0 → calculateTS points stats = JsNum.fin 0) ∧
      (∀ s : QuarterStats, stats = some s → tsDenominator s = JsNum.fin 0 →
        calculateTS points stats = JsNum.fin 0)) ∧
    (∀ md : MatchData,
      ((processedOne md).homeScore = JsNum.fin 0 → (processedOne md).homeTS = JsNum.fin 0) ∧
      ((processedOne md).awayScore = JsNum.fin 0 → (processedOne md).awayTS = JsNum.fin 0) ∧
      (∀ q : ℚ, (processedOne md).homeScore = JsNum.fin q → 0 < q →
        gameTSDenominator (gameStatAcc md).homeFGA (gameStatAcc md).homeFTA = JsNum.fin 0 →
        (processedOne md).homeTS = JsNum.pinf)) := by
  constructor
  · intro points stats
    refine ⟨rfl, ?_, ?_⟩
    · intro h
      cases stats with
      | none => rfl
      | some s => simp [calculateTS, h]
    · intro s hs hden
      subst hs
      simp only [calculateTS, hden]
      split <;> simp
  · intro md
    refine ⟨?_, ?_, ?_⟩
    · intro h
      rw [processedOne_homeScore] at h
      rw [processedOne_homeTS, h]
      exact gameTS_zero _
    · intro h
      rw [processedOne_awayScore] at h
      rw [processedOne_awayTS, h]
      exact gameTS_zero _
    · intro q hq hpos hden
      rw [processedOne_homeScore] at hq
      rw [processedOne_homeTS, hq, hden]
      exact gameTS_pinf q hpos

/-- A period line with explicit zero shooting figures, for the claim C8
witness: its true-shooting denominator is 0. -/
def c8stat : QuarterStats :=
  { field_goals_attempted := some ("0"), field_goals_made := some ("0"),
    free_throws_attempted := some ("0"), offensive_rebounds := none, turnovers := none }

/-- A raw record with a zero home score, for the claim C8 witness. -/
def c8mdW : MatchData :=
  { match_id := "c8w", date := "14.01.2025", home_team := "H", away_team := "W",
    home_score := "0", away_score := "90",
    quarter_scores := { q1 := none, q2 := none, q3 := none, q4 := none, ot := none },
    quarter_stats := [],
    line_odds := { total_line := 180, over_odds := none, under_odds := none } }

/-- Witness for the amended claim C8 at concrete inputs. -/
theorem c8_witness :
    calculateTS (JsNum.fin 55) none = JsNum.fin 0 ∧
    calculateTS (JsNum.fin 0) (some c8stat) = JsNum.fin 0 ∧
    calculateTS (JsNum.fin 55) (some c8stat) = JsNum.fin 0 ∧
    (processedOne c8mdW).homeTS = JsNum.fin 0 := by
  have hden : tsDenominator c8stat = JsNum.fin 0 := by
    have h0 : p (some ("0")) = JsNum.fin 0 := by decide
    rw [tsDenominator, gameTSDenominator]
    show jsMul (JsNum.fin 2)
      (jsAdd (p (some ("0"))) (jsMul (JsNum.fin (44 / 100 : ℚ)) (p (some ("0"))))) = JsNum.fin 0
    rw [h0]
    norm_num [jsMul, jsAdd]
  have hscore : (processedOne c8mdW).homeScore = JsNum.fin 0 := by
    rw [processedOne_homeScore]
    decide
  exact ⟨(c8_ts_guards.1 (JsNum.fin 55) none).1,
    (c8_ts_guards.1 (JsNum.fin 0) (some c8stat)).2.1 rfl,
    (c8_ts_guards.1 (JsNum.fin 55) (some c8stat)).2.2 c8stat rfl hden,
    (c8_ts_guards.2 c8mdW).1 hscore⟩

/-! ## Claim C2 -/

lemma betWon_over_eq (m : ProcessedMatch) (t : ℚ) (ht : m.totalScore = JsNum.fin t) :
    betWon Side.over m = decide (m.line < t) := by
  have h : betWon Side.over m = jsGt m.totalScore (.fin m.line) := rfl
  rw [h, ht, jsGt_fin_fin]

lemma betLost_over_eq (m : ProcessedMatch) (t : ℚ) (ht : m.totalScore = JsNum.fin t) :
    betLost Side.over m = decide (t < m.line) := by
  have h : betLost Side.over m = jsLt m.totalScore (.fin m.line) := rfl
  rw [h, ht, jsLt_fin_fin]

lemma betWon_under_eq (m : ProcessedMatch) (t : ℚ) (ht : m.totalScore = JsNum.fin t) :
    betWon Side.under m = decide (t < m.line) := by
  have h : betWon Side.under m = jsLt m.totalScore (.fin m.line) := rfl
  rw [h, ht, jsLt_fin_fin]

lemma betLost_under_eq (m : ProcessedMatch) (t : ℚ) (ht : m.totalScore = JsNum.fin t) :
    betLost Side.under m = decide (m.line < t) := by
  have h : betLost Side.under m = jsGt m.totalScore (.fin m.line) := rfl
  rw [h, ht, jsGt_fin_fin]

lemma btStep_win (cfg : BTConfig) (lavg : JsNum) (stats : List TeamStats) (st : BTState)
    (m : ProcessedMatch) (bt : Side) (hdec : decideBet cfg lavg stats m = some bt)
    (hwon : betWon bt m = true) :
    (btStep cfg lavg stats st m).profit = st.profit + cfg.wager * (btOdds bt m - 1) ∧
    (btStep cfg lavg stats st m).wins = st.wins + 1 ∧
    (btStep cfg lavg stats st m).losses = st.losses ∧
    (btStep cfg lavg stats st m).pushes = st.pushes ∧
    (btStep cfg lavg stats st m).betsPlaced = st.betsPlaced + 1 := by
  unfold btStep
  simp only [hdec]
  simp [hwon]

lemma btStep_loss (cfg : BTConfig) (lavg : JsNum) (stats : List TeamStats) (st : BTState)
    (m : ProcessedMatch) (bt : Side) (hdec : decideBet cfg lavg stats m = some bt)
    (hwon : betWon bt m = false) (hlost : betLost bt m = true) :
    (btStep cfg lavg stats st m).profit = st.profit - cfg.wager ∧
    (btStep cfg lavg stats st m).wins = st.wins ∧
    (btStep cfg lavg stats st m).losses = st.losses + 1 ∧
    (btStep cfg lavg stats st m).pushes = st.pushes ∧
    (btStep cfg lavg stats st m).betsPlaced = st.betsPlaced + 1 := by
  unfold btStep
  simp only [hdec]
  simp [hwon, hlost, sub_eq_add_neg]

lemma btStep_push (cfg : BTConfig) (lavg : JsNum) (stats : List TeamStats) (st : BTState)
    (m : ProcessedMatch) (bt : Side) (hdec : decideBet cfg lavg stats m = some bt)
    (hwon : betWon bt m = false) (hlost : betLost bt m = false) :
    (btStep cfg lavg stats st m).profit = st.profit ∧
    (btStep cfg lavg stats st m).wins = st.wins ∧
    (btStep cfg lavg stats st m).losses = st.losses ∧
    (btStep cfg lavg stats st m).pushes = st.pushes + 1 ∧
    (btStep cfg lavg stats st m).betsPlaced = st.betsPlaced + 1 := by
  unfold btStep
  simp only [hdec]
  simp [hwon, hlost]

lemma roi_spec (cfg : BTConfig) (ms : List ProcessedMatch) :
    (calculateBacktestRoi cfg ms).roi =
      (if 0 < (calculateBacktestRoi cfg ms).totalBets
       then jsMul (jsDiv (.fin (calculateBacktestRoi cfg ms).profit)
         (.fin (((calculateBacktestRoi cfg ms).totalBets : ℚ) * cfg.wager))) (.fin 100)
       else .fin 0) := rfl

/-- Winning two-bet inputs for the claim C2 concrete scenario: a 230
total against a 220 line at price 1.91, and a 210 total against 220. -/
def c2mW : ProcessedMatch := mkPM ("c2w") 5 ("A") ("B") (.fin 230) 220

/-- The losing leg of the claim C2 scenario. -/
def c2mL : ProcessedMatch := mkPM ("c2l") 4 ("C") ("D") (.fin 210) 220

/-- Blind-Over configuration with a 100 wager for the claim C2 scenario. -/
def c2cfg : BTConfig :=
  { strategy := .allOver, wager := 100, valueMargin := 5, efficiencyThreshold := (93 / 2 : ℚ),
    selectedTeam := "ALL", startDate := none, endDate := none }

/-- Claim C2: settlement of each placed bet is exact (a side wins iff the
total beats the line its way, loses iff the line beats it, and an exact
tie settles as a push with zero profit); a win pays wager times (odds - 1)
with the picked side's price, a loss costs the wager; ROI is
profit / (betsPlaced * wager) * 100 and 0 with no bets; and the concrete
two-bet run (one 1.91 win, one loss, wager 100) yields profit -9 and
ROI -4.5 percent. -/
theorem c2_settlement_roi :
    (∀ (cfg : BTConfig) (lavg : JsNum) (stats : List TeamStats) (st : BTState)
       (m : ProcessedMatch) (t : ℚ), m.totalScore = JsNum.fin t →
       decideBet cfg lavg stats m = some Side.over → m.line < t →
       (btStep cfg lavg stats st m).profit = st.profit + cfg.wager * (m.overOdds - 1) ∧
       (btStep cfg lavg stats st m).wins = st.wins + 1 ∧
       (btStep cfg lavg stats st m).losses = st.losses) ∧
    (∀ (cfg : BTConfig) (lavg : JsNum) (stats : List TeamStats) (st : BTState)
       (m : ProcessedMatch) (t : ℚ), m.totalScore = JsNum.fin t →
       decideBet cfg lavg stats m = some Side.over → t < m.line →
       (btStep cfg lavg stats st m).profit = st.profit - cfg.wager ∧
       (btStep cfg lavg stats st m).losses = st.losses + 1 ∧
       (btStep cfg lavg stats st m).wins = st.wins) ∧
    (∀ (cfg : BTConfig) (lavg : JsNum) (stats : List TeamStats) (st : BTState)
       (m : ProcessedMatch) (t : ℚ), m.totalScore = JsNum.fin t →
       decideBet cfg lavg stats m = some Side.under → t < m.line →
       (btStep cfg lavg stats st m).profit = st.profit + cfg.wager * (m.underOdds - 1) ∧
       (btStep cfg lavg stats st m).wins = st.wins + 1) ∧
    (∀ (cfg : BTConfig) (lavg : JsNum) (stats : List TeamStats) (st : BTState)
       (m : ProcessedMatch) (t : ℚ), m.totalScore = JsNum.fin t →
       decideBet cfg lavg stats m = some Side.under → m.line < t →
       (btStep cfg lavg stats st m).profit = st.profit - cfg.wager ∧
       (btStep cfg lavg stats st m).losses = st.losses + 1) ∧
    (∀ (cfg : BTConfig) (lavg : JsNum) (stats : List TeamStats) (st : BTState)
       (m : ProcessedMatch) (t : ℚ) (bt : Side), m.totalScore = JsNum.fin t →
       decideBet cfg lavg stats m = some bt → t = m.line →
       (btStep cfg lavg stats st m).profit = st.profit ∧
       (btStep cfg lavg stats st m).pushes = st.pushes + 1 ∧
       (btStep cfg lavg stats st m).wins = st.wins ∧
       (btStep cfg lavg stats st m).losses = st.losses ∧
       betWon bt m = false ∧ betLost bt m = false) ∧
    (∀ (cfg : BTConfig) (ms : List ProcessedMatch),
       ((calculateBacktestRoi cfg ms).totalBets = 0 → (calculateBacktestRoi cfg ms).roi = JsNum.fin 0) ∧
       (0 < (calculateBacktestRoi cfg ms).totalBets → cfg.wager ≠ 0 →
         (calculateBacktestRoi cfg ms).roi =
           JsNum.fin ((calculateBacktestRoi cfg ms).profit
             / (((calculateBacktestRoi cfg ms).totalBets : ℚ) * cfg.wager) * 100))) ∧
    ((calculateBacktestRoi c2cfg [c2mW, c2mL]).profit = -9 ∧
     (calculateBacktestRoi c2cfg [c2mW, c2mL]).roi = JsNum.fin (-4.5 : ℚ) ∧
     (calculateBacktestRoi c2cfg [c2mW, c2mL]).wins = 1 ∧
     (calculateBacktestRoi c2cfg [c2mW, c2mL]).losses = 1 ∧
     (calculateBacktestRoi c2cfg [c2mW, c2mL]).totalBets = 2) := by
  refine ⟨?_, ?_, ?_, ?_, ?_, ?_, ?_⟩
  · intro cfg lavg stats st m t ht hdec hlt
    have hwon : betWon Side.over m = true := by
      rw [betWon_over_eq m t ht]
      exact decide_eq_true hlt
    have h := btStep_win cfg lavg stats st m Side.over hdec hwon
    exact ⟨h.1, h.2.1, h.2.2.1⟩
  · intro cfg lavg stats st m t ht hdec hlt
    have hwon : betWon Side.over m = false := by
      rw [betWon_over_eq m t ht]
      simp [lt_asymm hlt]
    have hlost : betLost Side.over m = true := by
      rw [betLost_over_eq m t ht]
      exact decide_eq_true hlt
    have h := btStep_loss cfg lavg stats st m Side.over hdec hwon hlost
    exact ⟨h.1, h.2.2.1, h.2.1⟩
  · intro cfg lavg stats st m t ht hdec hlt
    have hwon : betWon Side.under m = true := by
      rw [betWon_under_eq m t ht]
      exact decide_eq_true hlt
    have h := btStep_win cfg lavg stats st m Side.under hdec hwon
    exact ⟨h.1, h.2.1⟩
  · intro cfg lavg stats st m t ht hdec hlt
    have hwon : betWon Side.under m = false := by
      rw [betWon_under_eq m t ht]
      simp [lt_asymm hlt]
    have hlost : betLost Side.under m = true := by
      rw [betLost_under_eq m t ht]
      exact decide_eq_true hlt
    have h := btStep_loss cfg lavg stats st m Side.under hdec hwon hlost
    exact ⟨h.1, h.2.2.1⟩
  · intro cfg lavg stats st m t bt ht hdec hteq
    have hwon : betWon bt m = false := by
      cases bt
      · rw [betWon_over_eq m t ht]
        simp [hteq]
      · rw [betWon_under_eq m t ht]
        simp [hteq]
    have hlost : betLost bt m = false := by
      cases bt
      · rw [betLost_over_eq m t ht]
        simp [hteq]
      · rw [betLost_under_eq m t ht]
        simp [hteq]
    have h := btStep_push cfg lavg stats st m bt hdec hwon hlost
    exact ⟨h.1, h.2.2.2.1, h.2.1, h.2.2.1, hwon, hlost⟩
  · intro cfg ms
    constructor
    · intro h
      rw [roi_spec, h]
      simp
    · intro hpos hw
      have hne : (((calculateBacktestRoi cfg ms).totalBets : ℚ) * cfg.wager) ≠ 0 := by
        have : ((calculateBacktestRoi cfg ms).totalBets : ℚ) ≠ 0 := by
          exact_mod_cast Nat.pos_iff_ne_zero.mp hpos
        exact mul_ne_zero this hw
      rw [roi_spec, if_pos hpos]
      simp [jsDiv, hne, jsMul]
  · norm_num [calculateBacktestRoi, filteredMatches, btFilter, sortDateDesc, insertDesc,
      btStep, decideBet, betWon, betLost, btOdds, jsGt, jsLt, jsDiv, jsMul, roi_spec,
      c2cfg, c2mW, c2mL, mkPM]

/-- Blind-Under variant of the claim C2 configuration. -/
def c2cfgU : BTConfig := { c2cfg with strategy := .allUnder }

/-- An exact tie against the line, for the push case of claim C2. -/
def c2mP : ProcessedMatch := mkPM ("c2p") 3 ("E") ("F") (.fin 220) 220

/-- Witness for claim C2, discharging every settlement case at concrete
inputs: over win, over loss, under win, under loss, push, and both ROI
branches. -/
theorem c2_witness :
    (btStep c2cfg (JsNum.fin 0) [] ⟨0, 0, 0, 0, 0, []⟩ c2mW).profit
      = 0 + 100 * ((191 / 100 : ℚ) - 1) ∧
    (btStep c2cfg (JsNum.fin 0) [] ⟨0, 0, 0, 0, 0, []⟩ c2mL).profit = 0 - 100 ∧
    (btStep c2cfgU (JsNum.fin 0) [] ⟨0, 0, 0, 0, 0, []⟩ c2mL).profit
      = 0 + 100 * ((191 / 100 : ℚ) - 1) ∧
    (btStep c2cfgU (JsNum.fin 0) [] ⟨0, 0, 0, 0, 0, []⟩ c2mW).profit = 0 - 100 ∧
    (btStep c2cfg (JsNum.fin 0) [] ⟨0, 0, 0, 0, 0, []⟩ c2mP).pushes = 0 + 1 ∧
    (calculateBacktestRoi c2cfg []).roi = JsNum.fin 0 ∧
    (calculateBacktestRoi c2cfg [c2mW, c2mL]).roi =
      JsNum.fin ((calculateBacktestRoi c2cfg [c2mW, c2mL]).profit
        / (((calculateBacktestRoi c2cfg [c2mW, c2mL]).totalBets : ℚ) * c2cfg.wager) * 100) := by
  have h := c2_settlement_roi
  refine ⟨?_, ?_, ?_, ?_, ?_, ?_, ?_⟩
  · exact (h.1 c2cfg (JsNum.fin 0) [] ⟨0, 0, 0, 0, 0, []⟩ c2mW 230 rfl rfl
      (by show (220 : ℚ) < 230; norm_num)).1
  · exact (h.2.1 c2cfg (JsNum.fin 0) [] ⟨0, 0, 0, 0, 0, []⟩ c2mL 210 rfl rfl
      (by show (210 : ℚ) < 220; norm_num)).1
  · exact (h.2.2.1 c2cfgU (JsNum.fin 0) [] ⟨0, 0, 0, 0, 0, []⟩ c2mL 210 rfl rfl
      (by show (210 : ℚ) < 220; norm_num)).1
  · exact (h.2.2.2.1 c2cfgU (JsNum.fin 0) [] ⟨0, 0, 0, 0, 0, []⟩ c2mW 230 rfl rfl
      (by show (220 : ℚ) < 230; norm_num)).1
  · exact (h.2.2.2.2.1 c2cfg (JsNum.fin 0) [] ⟨0, 0, 0, 0, 0, []⟩ c2mP 220 Side.over rfl rfl
      rfl).2.1
  · exact (h.2.2.2.2.2.1 c2cfg []).1 rfl
  · refine (h.2.2.2.2.2.1 c2cfg [c2mW, c2mL]).2 ?_ ?_
    · rw [(h.2.2.2.2.2.2).2.2.2.2]
      norm_num
    · show (100 : ℚ) ≠ 0
      norm_num

/-! ## Claim C3 -/

/-- Reversion test line 236 against a league averaging 230. -/
def c3m1 : ProcessedMatch := mkPM ("c3a") 5 ("A") ("B") (.fin 230) 236

/-- Reversion test line 224. -/
def c3m2 : ProcessedMatch := mkPM ("c3b") 4 ("C") ("D") (.fin 230) 224

/-- Reversion test line 230, exactly the average. -/
def c3m3 : ProcessedMatch := mkPM ("c3c") 3 ("E") ("F") (.fin 230) 230

/-- Filler match keeping the league average at 230. -/
def c3m4 : ProcessedMatch := mkPM ("c3d") 2 ("G") ("H") (.fin 230) 230

/-- Filler match keeping the league average at 230. -/
def c3m5 : ProcessedMatch := mkPM ("c3e") 1 ("I") ("J") (.fin 230) 230

/-- The five-match active dataset of the claim C3 scenario (every total
230, league average 230). -/
def c3ms : List ProcessedMatch := [c3m1, c3m2, c3m3, c3m4, c3m5]

/-- League-average-reversion configuration with margin 5. -/
def c3cfg : BTConfig :=
  { strategy := .leagueAvgReversion, wager := 100, valueMargin := 5,
    efficiencyThreshold := (93 / 2 : ℚ), selectedTeam := "ALL",
    startDate := none, endDate := none }

/-- Claim C3: the reversion strategy takes its league average from the
whole active dataset handed to the engine (the result even reports it),
and per match bets Under exactly when the line exceeds average plus
margin, Over exactly when (the first test failing) the line is below
average minus margin, and nothing otherwise; at average 230 and margin 5
the lines 236, 224 and 230 give Under, Over and no bet. -/
theorem c3_reversion :
    (∀ (cfg : BTConfig) (ms : List ProcessedMatch),
      (calculateBacktestRoi cfg ms).leagueAvg = leagueAvgOf ms) ∧
    (∀ (cfg : BTConfig) (avg : ℚ) (stats : List TeamStats) (m : ProcessedMatch),
      cfg.strategy = Strategy.leagueAvgReversion →
      ((decideBet cfg (JsNum.fin avg) stats m = some Side.under ↔ avg + cfg.valueMargin < m.line) ∧
       (decideBet cfg (JsNum.fin avg) stats m = some Side.over ↔
          (¬ avg + cfg.valueMargin < m.line ∧ m.line < avg - cfg.valueMargin)) ∧
       (decideBet cfg (JsNum.fin avg) stats m = none ↔
          (¬ avg + cfg.valueMargin < m.line ∧ ¬ m.line < avg - cfg.valueMargin)))) ∧
    ((calculateBacktestRoi c3cfg c3ms).leagueAvg = JsNum.fin 230 ∧
     (calculateBacktestRoi c3cfg c3ms).historyLogs.map (fun e => (e.id, e.pick)) =
       [(("c3a" : String), Side.under), (("c3b" : String), Side.over)] ∧
     (calculateBacktestRoi c3cfg c3ms).totalBets = 2) := by
  refine ⟨?_, ?_, ?_⟩
  · intro cfg ms
    rfl
  · intro cfg avg stats m hstrat
    simp only [decideBet, hstrat, jsAdd_fin_fin, jsSub_fin_fin, jsGt_fin_fin, jsLt_fin_fin]
    by_cases h1 : avg + cfg.valueMargin < m.line <;>
      by_cases h2 : m.line < avg - cfg.valueMargin <;>
        simp [h1, h2, sub_eq_add_neg] at *
  · norm_num [calculateBacktestRoi, filteredMatches, btFilter, sortDateDesc, insertDesc,
      leagueAvgOf, btStep, decideBet, betWon, betLost, btOdds, jsAdd, jsSub, jsNeg,
      jsGt, jsLt, jsDiv, jsMul, c3cfg, c3ms, c3m1, c3m2, c3m3, c3m4, c3m5, mkPM]

/-- Witness for claim C3: the three reversion decisions at average 230
and margin 5. -/
theorem c3_witness :
    decideBet c3cfg (JsNum.fin 230) [] c3m1 = some Side.under ∧
    decideBet c3cfg (JsNum.fin 230) [] c3m2 = some Side.over ∧
    decideBet c3cfg (JsNum.fin 230) [] c3m3 = none := by
  have h1 := c3_reversion.2.1 c3cfg 230 [] c3m1 rfl
  have h2 := c3_reversion.2.1 c3cfg 230 [] c3m2 rfl
  have h3 := c3_reversion.2.1 c3cfg 230 [] c3m3 rfl
  refine ⟨h1.1.mpr ?_, h2.2.1.mpr ⟨?_, ?_⟩, h3.2.2.mpr ⟨?_, ?_⟩⟩
  · show (230 : ℚ) + 5 < 236
    norm_num
  · show ¬ (230 : ℚ) + 5 < 224
    norm_num
  · show (224 : ℚ) < 230 - 5
    norm_num
  · show ¬ (230 : ℚ) + 5 < 230
    norm_num
  · show ¬ (230 : ℚ) < 230 - 5
    norm_num

/-! ## Claim C4 -/

/-- A single match between teams shooting 46 and 47 percent. -/
def c4m : ProcessedMatch :=
  { mkPM ("c4") 1 ("A") ("B") (.fin 230) 220 with
    homeFG_Pct := .fin 46, awayFG_Pct := .fin 47 }

/-- High-efficiency configuration whose threshold 46.5 equals the
combined FG percentage of the claim C4 scenario exactly. -/
def c4cfgEq : BTConfig :=
  { strategy := .highEfficiencyOver, wager := 100, valueMargin := 5,
    efficiencyThreshold := (93 / 2 : ℚ), selectedTeam := "ALL",
    startDate := none, endDate := none }

/-- The same configuration with the threshold one point lower. -/
def c4cfgAbove : BTConfig := { c4cfgEq with efficiencyThreshold := (91 / 2 : ℚ) }

/-- The light aggregate the backtest derives for the home team of the
claim C4 scenario. -/
def c4tsA : TeamStats :=
  { name := "A", gamesPlayed := .nan, avgPointsFor := .fin 0, avgPointsAgainst := .fin 0,
    avgPace := .fin 0, avgTS := .fin 0, overRate := .fin 0, last10Avg := .fin 0,
    avgFGA := .fin 0, avgFG_Pct := .fin 46, avg3P_Pct := .fin 0, avgFouls := .fin 0,
    avgFTM := .fin 0, avgTurnovers := .fin 0, avgFTA := .fin 0, avgRebounds := .fin 0 }

/-- The light aggregate of the away team of the claim C4 scenario. -/
def c4tsB : TeamStats :=
  { name := "B", gamesPlayed := .nan, avgPointsFor := .fin 0, avgPointsAgainst := .fin 0,
    avgPace := .fin 0, avgTS := .fin 0, overRate := .fin 0, last10Avg := .fin 0,
    avgFGA := .fin 0, avgFG_Pct := .fin 47, avg3P_Pct := .fin 0, avgFouls := .fin 0,
    avgFTM := .fin 0, avgTurnovers := .fin 0, avgFTA := .fin 0, avgRebounds := .fin 0 }

/-- A team-aggregate literal carrying only a name and an FG percentage. -/
def mkTS (nm : String) (fg : JsNum) : TeamStats :=
  { name := nm, gamesPlayed := .fin 1, avgPointsFor := .fin 0, avgPointsAgainst := .fin 0,
    avgPace := .fin 0, avgTS := .fin 0, overRate := .fin 0, last10Avg := .fin 0,
    avgFGA := .fin 0, avgFG_Pct := fg, avg3P_Pct := .fin 0, avgFouls := .fin 0,
    avgFTM := .fin 0, avgTurnovers := .fin 0, avgFTA := .fin 0, avgRebounds := .fin 0 }

/-- Claim C4: under the high-efficiency strategy, when both teams have
aggregates the bet is Over exactly when the mean of their FG percentages
strictly exceeds the threshold; equality places no bet; and the concrete
46/47-percent matchup places no bet at threshold 46.5 but an Over bet one
point lower. -/
theorem c4_high_efficiency :
    (∀ (cfg : BTConfig) (lavg : JsNum) (stats : List TeamStats) (m : ProcessedMatch)
       (home away : TeamStats) (c : ℚ),
      cfg.strategy = Strategy.highEfficiencyOver →
      getTeamStats stats m.homeTeam = some home →
      getTeamStats stats m.awayTeam = some away →
      jsDiv (jsAdd home.avgFG_Pct away.avgFG_Pct) (JsNum.fin 2) = JsNum.fin c →
      ((decideBet cfg lavg stats m = some Side.over ↔ cfg.efficiencyThreshold < c) ∧
       (decideBet cfg lavg stats m = none ↔ ¬ cfg.efficiencyThreshold < c) ∧
       (c = cfg.efficiencyThreshold → decideBet cfg lavg stats m = none))) ∧
    ((calculateBacktestRoi c4cfgEq [c4m]).totalBets = 0 ∧
     (calculateBacktestRoi c4cfgAbove [c4m]).totalBets = 1 ∧
     (calculateBacktestRoi c4cfgAbove [c4m]).historyLogs.map (fun e => e.pick) = [Side.over]) := by
  have hmain : ∀ (cfg : BTConfig) (lavg : JsNum) (stats : List TeamStats) (m : ProcessedMatch)
       (home away : TeamStats) (c : ℚ),
      cfg.strategy = Strategy.highEfficiencyOver →
      getTeamStats stats m.homeTeam = some home →
      getTeamStats stats m.awayTeam = some away →
      jsDiv (jsAdd home.avgFG_Pct away.avgFG_Pct) (JsNum.fin 2) = JsNum.fin c →
      ((decideBet cfg lavg stats m = some Side.over ↔ cfg.efficiencyThreshold < c) ∧
       (decideBet cfg lavg stats m = none ↔ ¬ cfg.efficiencyThreshold < c) ∧
       (c = cfg.efficiencyThreshold → decideBet cfg lavg stats m = none)) := by
    intro cfg lavg stats m home away c hstrat hhome haway hcomb
    simp only [decideBet, hstrat, hhome, haway, hcomb, jsGt_fin_fin]
    refine ⟨?_, ?_, ?_⟩
    · by_cases h : cfg.efficiencyThreshold < c <;> simp [h]
    · by_cases h : cfg.efficiencyThreshold < c <;> simp [h]
    · intro hceq
      simp [hceq]
  refine ⟨hmain, ?_⟩
  have hstats : currentTeamStatsOf [c4m] = [c4tsA, c4tsB] := by
    simp [currentTeamStatsOf, ensureTeam, updTeam, c4m, mkPM, c4tsA, c4tsB, jsAdd, jsDiv]
  have hgA : getTeamStats (currentTeamStatsOf [c4m]) c4m.homeTeam = some c4tsA := by
    rw [hstats]
    decide
  have hgB : getTeamStats (currentTeamStatsOf [c4m]) c4m.awayTeam = some c4tsB := by
    rw [hstats]
    decide
  have hcomb : jsDiv (jsAdd c4tsA.avgFG_Pct c4tsB.avgFG_Pct) (JsNum.fin 2)
      = JsNum.fin (93 / 2 : ℚ) := by
    norm_num [c4tsA, c4tsB, jsAdd, jsDiv]
  have hfiltEq : filteredMatches c4cfgEq [c4m] = [c4m] := by
    simp [filteredMatches, btFilter, sortDateDesc, insertDesc, c4cfgEq]
  have hfiltAb : filteredMatches c4cfgAbove [c4m] = [c4m] := by
    simp [filteredMatches, btFilter, sortDateDesc, insertDesc, c4cfgAbove, c4cfgEq]
  have hdecEq : decideBet c4cfgEq (leagueAvgOf [c4m]) (currentTeamStatsOf [c4m]) c4m = none := by
    refine (hmain c4cfgEq (leagueAvgOf [c4m]) (currentTeamStatsOf [c4m]) c4m c4tsA c4tsB
      (93 / 2 : ℚ) rfl hgA hgB hcomb).2.1.mpr ?_
    show ¬ (93 / 2 : ℚ) < 93 / 2
    norm_num
  have hdecAb : decideBet c4cfgAbove (leagueAvgOf [c4m]) (currentTeamStatsOf [c4m]) c4m
      = some Side.over := by
    refine (hmain c4cfgAbove (leagueAvgOf [c4m]) (currentTeamStatsOf [c4m]) c4m c4tsA c4tsB
      (93 / 2 : ℚ) rfl hgA hgB hcomb).1.mpr ?_
    show (91 / 2 : ℚ) < 93 / 2
    norm_num
  refine ⟨?_, ?_, ?_⟩
  · simp only [calculateBacktestRoi, hfiltEq, List.foldl_cons, List.foldl_nil]
    unfold btStep
    simp only [hdecEq]
  · simp only [calculateBacktestRoi, hfiltAb, List.foldl_cons, List.foldl_nil]
    unfold btStep
    simp only [hdecAb]
  · simp only [calculateBacktestRoi, hfiltAb, List.foldl_cons, List.foldl_nil]
    unfold btStep
    simp only [hdecAb]
    simp

/-- Witness for claim C4: the strict-threshold decisions at the concrete
46/47-percent aggregates. -/
theorem c4_witness :
    decideBet c4cfgAbove (JsNum.fin 0) [mkTS ("A") (.fin 46), mkTS ("B") (.fin 47)] c4m
      = some Side.over ∧
    decideBet c4cfgEq (JsNum.fin 0) [mkTS ("A") (.fin 46), mkTS ("B") (.fin 47)] c4m = none := by
  have hhome : getTeamStats [mkTS ("A") (.fin 46), mkTS ("B") (.fin 47)] c4m.homeTeam
      = some (mkTS ("A") (.fin 46)) := by decide
  have haway : getTeamStats [mkTS ("A") (.fin 46), mkTS ("B") (.fin 47)] c4m.awayTeam
      = some (mkTS ("B") (.fin 47)) := by decide
  have hcomb : jsDiv (jsAdd (mkTS ("A") (.fin 46)).avgFG_Pct (mkTS ("B") (.fin 47)).avgFG_Pct)
      (JsNum.fin 2) = JsNum.fin (93 / 2 : ℚ) := by
    norm_num [mkTS, jsAdd, jsDiv]
  constructor
  · refine (c4_high_efficiency.1 c4cfgAbove (JsNum.fin 0) _ c4m _ _ (93 / 2 : ℚ)
      rfl hhome haway hcomb).1.mpr ?_
    show (91 / 2 : ℚ) < 93 / 2
    norm_num
  · exact (c4_high_efficiency.1 c4cfgEq (JsNum.fin 0) _ c4m _ _ (93 / 2 : ℚ)
      rfl hhome haway hcomb).2.2 rfl

/-- Target match of the claim C5 witness. -/
def c5mt : ProcessedMatch := mkPM ("c5t") 100 ("A") ("B") (.fin 0) 0

/-- An earlier match involving the target home team. -/
def c5e : ProcessedMatch := mkPM ("c5e") 50 ("A") ("C") (.fin 0) 0

/-- A same-date match of the same team: must be excluded. -/
def c5s : ProcessedMatch := mkPM ("c5s") 100 ("A") ("C") (.fin 0) 0

/-- An earlier match of unrelated teams: must be excluded. -/
def c5u : ProcessedMatch := mkPM ("c5u") 50 ("X") ("Y") (.fin 0) 0

/-- Witness for claim C5: the earlier same-team match is kept, the
same-date match and the unrelated match are dropped. -/
theorem c5_witness :
    c5e ∈ relevantHistory c5mt [c5e, c5s, c5u] ∧
    c5s ∉ relevantHistory c5mt [c5e, c5s, c5u] ∧
    c5u ∉ relevantHistory c5mt [c5e, c5s, c5u] := by
  refine ⟨?_, ?_, ?_⟩
  · refine (c5_relevant_history.1 c5mt [c5e, c5s, c5u] c5e).mpr ⟨by simp, ?_, Or.inl rfl⟩
    show (50 : ℤ) < 100
    norm_num
  · exact c5_relevant_history.2 c5mt [c5e, c5s, c5u] c5s (by simp) rfl
  · intro h
    have h2 := ((c5_relevant_history.1 c5mt [c5e, c5s, c5u] c5u).mp h).2.2
    simp [c5u, c5mt, mkPM] at h2
